import Mathlib

/-!
Verification of MyMinecraftLauncher (a single-file Minecraft launcher).

Shallow embedding of the launcher's pure core: the platform-rule evaluator,
library URL resolution and classpath construction, name sanitization,
template substitution for game arguments, the profile store operations,
the content-addressed asset store check, and Java runtime acquisition.
Filesystem and network effects are modelled by explicit state passing;
fallible operations return `Except`.

The target platform is fixed: the launcher only supports `windows`.
-/

/-! ## Rule evaluator (`allowed_by_rules`) -/

/-- A platform rule: `action` is `"allow"` or `"disallow"`; `os` is the
optional OS-name constraint (`rule["os"]["name"]` in the JSON). -/
structure Rule where
  action : String
  os : Option String
deriving DecidableEq

/-- The loop body of `allowed_by_rules`, with the running `allowed` flag as
an accumulator.  Mirrors the source: an allow rule whose OS constraint is
`windows` returns `true` at once; a disallow rule whose constraint is
`windows` returns `false` at once; unconditional rules set the flag; rules
with a non-matching constraint (or an unknown action) are skipped. -/
def allowedByRulesAux : Bool → List Rule → Bool
  | allowed, [] => allowed
  | allowed, r :: rest =>
    if r.action = "allow" then
      match r.os with
      | some osName =>
        if osName = "windows" then true else allowedByRulesAux allowed rest
      | none => allowedByRulesAux true rest
    else if r.action = "disallow" then
      match r.os with
      | some osName =>
        if osName = "windows" then false else allowedByRulesAux allowed rest
      | none => allowedByRulesAux false rest
    else allowedByRulesAux allowed rest

/-- `allowed_by_rules(rules)`: starts with `allowed = False`. -/
def allowedByRules (rules : List Rule) : Bool :=
  allowedByRulesAux false rules

/-! ## Library URL resolution (`get_library_urls`) and the classpath -/

/-- A library entry, flattened from the JSON shape used by the source:
`rules` is the optional rule list; `nativesWindows` is
`downloads.classifiers.natives-windows.url` when both keys are present;
`artifact` is `downloads.artifact.url` when present. -/
structure Library where
  rules : Option (List Rule)
  nativesWindows : Option String
  artifact : Option String
deriving DecidableEq

/-- The URLs one accepted library entry contributes, in source order:
the `natives-windows` classifier URL first, then the main artifact URL. -/
def libraryUrls (lib : Library) : List String :=
  (match lib.nativesWindows with | some u => [u] | none => []) ++
    (match lib.artifact with | some u => [u] | none => [])

/-- `get_library_urls(*args)`: skip an entry that carries rules the rule
evaluator rejects; otherwise append its natives-classifier URL (if any)
then its artifact URL (if any), preserving entry order. -/
def getLibraryUrls : List Library → List String
  | [] => []
  | lib :: rest =>
    match lib.rules with
    | some rs =>
      if allowedByRules rs then libraryUrls lib ++ getLibraryUrls rest
      else getLibraryUrls rest
    | none => libraryUrls lib ++ getLibraryUrls rest

/-- `url.split("/")[-1]`: the segment after the last slash. -/
def lastSegAux : List Char → List Char → List Char
  | [], acc => acc.reverse
  | c :: rest, acc =>
    if c = '/' then lastSegAux rest [] else lastSegAux rest (c :: acc)

/-- Last path segment of a URL, as used for local artifact filenames. -/
def lastSegment (url : String) : String :=
  String.mk (lastSegAux url.data [])

/-- The classpath built by `launch_profile`: each resolved library URL is
mapped to its path in the libraries directory, in resolved order, and the
client jar `versions/<id>.jar` is appended last. -/
def classpathOf (libs : List Library) (versionId : String) : List String :=
  (getLibraryUrls libs).map (fun url => "libraries/" ++ lastSegment url) ++
    ["versions/" ++ versionId ++ ".jar"]

/-! ## Name sanitization (`format_name`) -/

/-- The whitespace set of Python's `str.strip()` (ASCII part). -/
def pyWhitespace (c : Char) : Bool :=
  c.isWhitespace || c = '\x0b' || c = '\x0c'

/-- Python `str.strip()`: drop leading and trailing whitespace. -/
def pyStrip (l : List Char) : List Char :=
  (l.dropWhile pyWhitespace).rdropWhile pyWhitespace

/-- Python `str.replace(a, b)` for single-character patterns. -/
def pyReplaceChar (a b : Char) (l : List Char) : List Char :=
  l.map (fun c => if c = a then b else c)

/-- `format_name(name)`: strip, replace `/`, `\`, `"`, `'` by `_` (in that
order), then map a result exactly equal to `".."` to `"__"`. -/
def formatName (s : String) : String :=
  let t := pyReplaceChar '\'' '_' (pyReplaceChar '\"' '_'
    (pyReplaceChar '\\' '_' (pyReplaceChar '/' '_' (pyStrip s.data))))
  if t = ['.', '.'] then "__" else String.mk t

/-! ## Template substitution (`format_template`) -/

/-- Failures of `format_template`: the explicit
`raise Exception("Format should be terminated.")` for an unterminated
`${`; the `KeyError` of `kwargs[key]` for an unknown key; and the
`StopIteration` of the bare `next(iterator)` after a trailing `$`. -/
inductive FmtErr where
  | malformedTemplate
  | unknownTemplateKey
  | stopIteration
deriving DecidableEq

/-- Scanner state of the `format_template` loop: copying plain characters,
having just consumed a `$`, or accumulating a key after `${`. -/
inductive FmtMode where
  | plain : FmtMode
  | dollar : FmtMode
  | key : List Char → FmtMode

/-- One-pass scanner of `format_template` over the character stream.
In `plain` mode a non-`$` character is copied; `$` switches to `dollar`
mode.  In `dollar` mode a non-brace character is copied together with the
`$`; `\x7b` starts a key.  In `key` mode characters accumulate until
`\x7d`, whereupon the key is looked up in the substitution table and its
value is emitted.  End of input in `dollar` mode is the `StopIteration`
of `next(iterator)`; end of input in `key` mode is the malformed-template
error. -/
def fmtRun (table : List (String × String)) :
    FmtMode → List Char → Except FmtErr (List Char)
  | .plain, [] => .ok []
  | .dollar, [] => .error .stopIteration
  | .key _, [] => .error .malformedTemplate
  | .plain, c :: rest =>
    if c = '$' then fmtRun table .dollar rest
    else Except.map (fun out => c :: out) (fmtRun table .plain rest)
  | .dollar, c :: rest =>
    if c = '\x7b' then fmtRun table (.key []) rest
    else Except.map (fun out => '$' :: c :: out) (fmtRun table .plain rest)
  | .key k, c :: rest =>
    if c = '\x7d' then
      match table.lookup (String.mk k) with
      | none => .error .unknownTemplateKey
      | some v => Except.map (fun out => v.data ++ out) (fmtRun table .plain rest)
    else fmtRun table (.key (k ++ [c])) rest

/-- `format_template(string, **kwargs)`. -/
def formatTemplate (s : String) (table : List (String × String)) :
    Except FmtErr String :=
  Except.map String.mk (fmtRun table .plain s.data)

/-! ## Profile store (`create_profile`, `profile_exists`, `delete_profile`)

State model: `profiles` is the in-memory registry list; `dirs` is the set
of profile names whose directory tree `profiles/<name>/.minecraft` exists
on disk; `markers` maps a profile name to the contents of its `.VERSION`
marker file. -/

structure PState where
  profiles : List String
  dirs : List String
  markers : List (String × String)
deriving DecidableEq

/-- `profile_exists(name)`: the sanitized name is registered. -/
def profileExists (st : PState) (name : String) : Bool :=
  decide (formatName name ∈ st.profiles)

/-- Writing the `.VERSION` marker file (truncates any previous content). -/
def setMarker (markers : List (String × String)) (n v : String) :
    List (String × String) :=
  (n, v) :: markers.filter (fun p => p.1 != n)

inductive CreateErr where
  | fileExists
  | acquisitionFailed
deriving DecidableEq

/-- `create_profile(name, version_id)`: sanitize, `mkdir(parents=True)`
(raises `FileExistsError` if the directory is already there), write the
marker, then resolve and acquire the version over the network — modelled
by the `acquireOk` oracle (`get_version_json` / `download_version` /
`link_legacy_assets` succeed or raise) — and finally register the name.
On error the state mutated so far is carried in the error value, since a
Python exception leaves completed side effects in place. -/
def createProfile (st : PState) (name versionId : String) (acquireOk : Bool) :
    Except (CreateErr × PState) PState :=
  let n := formatName name
  if n ∈ st.dirs then .error (.fileExists, st)
  else
    let st1 : PState :=
      ⟨st.profiles, n :: st.dirs, setMarker st.markers n versionId⟩
    if acquireOk then .ok { st1 with profiles := st1.profiles ++ [n] }
    else .error (.acquisitionFailed, st1)

inductive DelErr where
  | fileNotFound
deriving DecidableEq

/-- `delete_profile(name)`: sanitize, `shutil.rmtree` the profile directory
(raises `FileNotFoundError` when it does not exist; removing the tree also
removes the marker file inside it), then remove the name from the registry
if it is present. -/
def deleteProfile (st : PState) (name : String) : Except DelErr PState :=
  let n := formatName name
  if n ∈ st.dirs then
    let st1 : PState :=
      ⟨st.profiles, st.dirs.erase n, st.markers.filter (fun p => p.1 != n)⟩
    if n ∈ st1.profiles then .ok { st1 with profiles := st1.profiles.erase n }
    else .ok st1
  else .error .fileNotFound

/-- Outcome of the New Profile dialog's create action. -/
inductive CreateResult where
  | created
  | alreadyExists
  | errorShown
  | cleanupFailed
deriving DecidableEq

/-- `NewProfileWindow._on_create` with a version selected: if
`profile_exists(name)` the dialog only rings the bell — the creation
attempt fails (AlreadyExists) with no state change; otherwise it runs
`create_profile` and, if that raises, cleans up with `delete_profile`
before reporting the error. -/
def onCreate (st : PState) (name versionId : String) (acquireOk : Bool) :
    CreateResult × PState :=
  if profileExists st name then (.alreadyExists, st)
  else
    match createProfile st name versionId acquireOk with
    | .ok st1 => (.created, st1)
    | .error (_, st1) =>
      match deleteProfile st1 name with
      | .ok st2 => (.errorShown, st2)
      | .error _ => (.cleanupFailed, st1)

/-! ## Content-addressed asset store (`download_assets` object loop) -/

/-- The canonical shard path of an asset object: the first two characters
of the hash as the shard directory, then the full hash. -/
def shardPath (h : String) : String :=
  "assets/objects/" ++ String.mk (h.data.take 2) ++ "/" ++ h

/-- One iteration of the `download_assets` object loop, for one hash:
if the shard path exists, nothing happens (cache hit); otherwise the
object is fetched into that path.  Returns the store contents (the set of
existing paths), the object's path, and the number of network fetches
performed. -/
def ensureAsset (stored : List String) (h : String) :
    List String × String × Nat :=
  if shardPath h ∈ stored then (stored, shardPath h, 0)
  else (shardPath h :: stored, shardPath h, 1)

/-! ## Java runtime acquisition (`download_java`) -/

/-- `JRE_DOWNLOAD_URLS`: the static registry of release archives. -/
def jreDownloadUrls (v : Nat) : Option String :=
  if v = 8 then
    some "https://github.com/adoptium/temurin8-binaries/releases/download/jdk8u392-b08/OpenJDK8U-jre_x64_windows_hotspot_8u392b08.zip"
  else if v = 17 then
    some "https://github.com/adoptium/temurin17-binaries/releases/download/jdk-17.0.9%2B9.1/OpenJDK17U-jre_x64_windows_hotspot_17.0.9_9.zip"
  else none

/-- `JRE_DIRECTORIES`: the installation directory per major version. -/
def jreDirectories (v : Nat) : Option String :=
  if v = 8 then some "java/jdk8u392-b08-jre/bin"
  else if v = 17 then some "java/jdk-17.0.9+9-jre/bin"
  else none

/-- Failure of `download_java`: the `KeyError` of looking up a version
absent from the fixed registries (the spec's UnsupportedRuntime). -/
inductive JavaErr where
  | unsupportedRuntime
deriving DecidableEq

/-- Filesystem/network state for `download_java`: existing installation
directories, files in the temp directory, and fetches performed. -/
structure JavaState where
  dirs : List String
  temp : List String
  fetches : Nat
deriving DecidableEq

/-- `download_java(version)`: `JRE_DIRECTORIES[version]` (KeyError when
the version is not 8 or 17); return at once if that directory exists;
otherwise download the registry archive to a temp zip, extract it into
the Java directory (creating the installation directory), and unlink the
zip. -/
def downloadJava (st : JavaState) (v : Nat) : Except JavaErr JavaState :=
  match jreDirectories v with
  | none => .error .unsupportedRuntime
  | some dir =>
    if dir ∈ st.dirs then .ok st
    else
      match jreDownloadUrls v with
      | none => .error .unsupportedRuntime
      | some url =>
        let zipName := lastSegment url ++ ".zip"
        let tempAfterWrite :=
          if zipName ∈ st.temp then st.temp else zipName :: st.temp
        .ok { dirs := dir :: st.dirs,
              temp := tempAfterWrite.filter (fun p => p != zipName),
              fetches := st.fetches + 1 }

/-! ## Claims about the rule evaluator and library resolution -/

/-- Claim C1: `allowed_by_rules` follows the order-sensitive,
last-unconditional-match-wins algorithm with short-circuit on
platform-specific match: it starts from `allowed = false`, returns `true`
immediately on an allow rule whose OS constraint matches the target
platform (`windows`), returns `false` immediately on a matching disallow
rule, sets the running flag on unconditional rules, ignores rules with
non-matching constraints, and returns the flag at the end; in particular
`[{allow, no-os}, {disallow, os=linux}]` evaluates to `true`. -/
theorem allowedByRules_algorithm (b : Bool) (rest : List Rule) (act x : String)
    (hx : x ≠ "windows") :
    allowedByRules rest = allowedByRulesAux false rest ∧
    allowedByRulesAux b [] = b ∧
    allowedByRulesAux b (⟨"allow", some "windows"⟩ :: rest) = true ∧
    allowedByRulesAux b (⟨"disallow", some "windows"⟩ :: rest) = false ∧
    allowedByRulesAux b (⟨"allow", none⟩ :: rest) = allowedByRulesAux true rest ∧
    allowedByRulesAux b (⟨"disallow", none⟩ :: rest) = allowedByRulesAux false rest ∧
    allowedByRulesAux b (⟨act, some x⟩ :: rest) = allowedByRulesAux b rest ∧
    allowedByRules [⟨"allow", none⟩, ⟨"disallow", some "linux"⟩] = true := by
  refine ⟨rfl, rfl, rfl, rfl, rfl, rfl, ?_, by decide⟩
  simp only [allowedByRulesAux]
  split_ifs <;> simp [hx]

/-- Witness for C1 at concrete inputs. -/
theorem allowedByRules_algorithm_witness :
    allowedByRules [⟨"allow", none⟩, ⟨"disallow", some "linux"⟩] = true :=
  (allowedByRules_algorithm false [] "allow" "linux" (by decide)).2.2.2.2.2.2.2

/-- Claim C9: the rule evaluator returns `false` on the empty rule list,
so a library entry carrying an empty `rules` list is excluded from the
resolved URLs, whereas an entry with no `rules` attribute at all is always
included — the two "no rules" shapes behave oppositely. -/
theorem emptyRules_vs_noRules :
    allowedByRules ([] : List Rule) = false ∧
    (∀ (nw art : Option String) (rest : List Library),
      getLibraryUrls (⟨some [], nw, art⟩ :: rest) = getLibraryUrls rest) ∧
    (∀ (nw art : Option String) (rest : List Library),
      getLibraryUrls (⟨none, nw, art⟩ :: rest) =
        libraryUrls ⟨none, nw, art⟩ ++ getLibraryUrls rest) :=
  ⟨rfl, fun _ _ _ => rfl, fun _ _ _ => rfl⟩

/-- Example library whose rules reject it on the target platform. -/
def exLibA : Library :=
  ⟨some [⟨"disallow", none⟩], none, some "https://libs.example/A-main.jar"⟩

/-- Example library with a native classifier and a main artifact. -/
def exLibB : Library :=
  ⟨none, some "https://libs.example/B-native.jar",
   some "https://libs.example/B-main.jar"⟩

/-- Example library with only a main artifact. -/
def exLibC : Library := ⟨none, none, some "https://libs.example/C-main.jar"⟩

/-- Claim C3: `get_library_urls` skips an entry whose rules the evaluator
rejects and otherwise appends the native-classifier URL (if present) and
then the main artifact URL (if present), preserving entry order; the
launch classpath maps those URLs to library file paths in that order and
appends the client jar last.  For `[A(rules reject), B(native+main),
C(main only)]` the classpath is `[B-native, B-main, C-main, clientJar]`. -/
theorem getLibraryUrls_classpath_order (lib1 lib2 lib3 : Library)
    (rest : List Library) (libs : List Library) (rs1 rs3 : List Rule)
    (vid : String)
    (h1 : lib1.rules = some rs1) (h1r : allowedByRules rs1 = false)
    (h2 : lib2.rules = none)
    (h3 : lib3.rules = some rs3) (h3a : allowedByRules rs3 = true) :
    getLibraryUrls (lib1 :: rest) = getLibraryUrls rest ∧
    getLibraryUrls (lib2 :: rest) = libraryUrls lib2 ++ getLibraryUrls rest ∧
    getLibraryUrls (lib3 :: rest) = libraryUrls lib3 ++ getLibraryUrls rest ∧
    classpathOf libs vid =
      (getLibraryUrls libs).map (fun url => "libraries/" ++ lastSegment url) ++
        ["versions/" ++ vid ++ ".jar"] ∧
    classpathOf [exLibA, exLibB, exLibC] "1.0" =
      ["libraries/B-native.jar", "libraries/B-main.jar",
       "libraries/C-main.jar", "versions/1.0.jar"] := by
  refine ⟨?_, ?_, ?_, rfl, by decide⟩
  · simp [getLibraryUrls, h1, h1r]
  · simp [getLibraryUrls, h2]
  · simp [getLibraryUrls, h3, h3a]

/-- Witness for C3 at concrete inputs. -/
theorem getLibraryUrls_classpath_order_witness :
    classpathOf [exLibA, exLibB, exLibC] "1.0" =
      ["libraries/B-native.jar", "libraries/B-main.jar",
       "libraries/C-main.jar", "versions/1.0.jar"] :=
  (getLibraryUrls_classpath_order exLibA exLibB
      ⟨some [⟨"allow", none⟩], none, none⟩ [] [] [⟨"disallow", none⟩]
      [⟨"allow", none⟩] "1.0" rfl (by decide) rfl rfl (by decide)).2.2.2.2

/-! ## Claims about template substitution -/

/-- Claim C2 as stated is false at the input `"$"`: a literal `$` that
ends the string is not copied verbatim — `format_template` raises the
`StopIteration` of the bare `next(iterator)` call instead of returning
`"$"`. -/
theorem formatTemplate_trailing_dollar_cex :
    formatTemplate "$" [] = Except.error FmtErr.stopIteration ∧
      formatTemplate "$" [] ≠ Except.ok "$" :=
  ⟨rfl, fun h => by simp [formatTemplate, fmtRun, Except.map] at h⟩

/-- Claim C2 (amended): a literal `$` followed by a character other than
`\x7b` is copied verbatim together with that character, while a `$` that
is the last character of the input fails with StopIteration; `${key}` is
replaced by the key's value (`"Hello ${name}!"` with name bound to
`"Steve"` yields `"Hello Steve!"`, and `"$100"` is returned unchanged);
an unterminated `${` fails with MalformedTemplate; a key absent from the
substitution table fails with UnknownTemplateKey. -/
theorem formatTemplate_spec (table table2 : List (String × String)) (c : Char)
    (rest : List Char) (hc : c ≠ '\x7b') (hk : table2.lookup "name" = none) :
    fmtRun table .plain ('$' :: c :: rest) =
      Except.map (fun out => '$' :: c :: out) (fmtRun table .plain rest) ∧
    formatTemplate "Hello ${name}!" [("name", "Steve")] = .ok "Hello Steve!" ∧
    formatTemplate "$100" table = .ok "$100" ∧
    formatTemplate "$\x7bunterminated" table = .error .malformedTemplate ∧
    formatTemplate "$\x7bname\x7d" table2 = .error .unknownTemplateKey ∧
    formatTemplate "$" table = .error .stopIteration := by
  have hk2 : table2.lookup (String.mk ['n', 'a', 'm', 'e']) = none := hk
  refine ⟨?_, rfl, rfl, rfl, ?_, rfl⟩
  · simp [fmtRun, hc]
  · simp [formatTemplate, fmtRun, hk2, Except.map]

/-- Witness for C2's amended theorem at concrete inputs. -/
theorem formatTemplate_spec_witness :
    formatTemplate "Hello ${name}!" [("name", "Steve")] = .ok "Hello Steve!" :=
  (formatTemplate_spec [] [] '1' "00".data (by decide) rfl).2.1

/-! ## Claims about the profile store -/

/-- Claim C4: when a profile whose sanitized name is already registered
exists, a second creation attempt with that name is rejected
(AlreadyExists) and changes nothing: the registry, the profile directory
set, and the marker files are all left exactly as they were.  Moreover a
creation attempt that succeeded makes any immediately following attempt
with the same name fail that way. -/
theorem createProfile_duplicate_rejected (st st' : PState)
    (name versionId : String) (acquireOk : Bool)
    (h : formatName name ∈ st.profiles) :
    onCreate st name versionId acquireOk = (.alreadyExists, st) ∧
    ((onCreate st' name versionId acquireOk).1 = .created →
      onCreate (onCreate st' name versionId acquireOk).2 name versionId
          acquireOk =
        (.alreadyExists, (onCreate st' name versionId acquireOk).2)) := by
  constructor
  · simp [onCreate, profileExists, h]
  · intro hcr
    by_cases hex : profileExists st' name
    · simp [onCreate, hex] at hcr
    · simp only [onCreate, hex, if_neg, Bool.false_eq_true, if_false]
      simp only [onCreate, hex, Bool.false_eq_true, if_false] at hcr
      unfold createProfile at hcr ⊢
      by_cases hd : formatName name ∈ st'.dirs
      · simp [hd] at hcr
        split at hcr <;> simp_all
      · simp only [hd, if_neg, if_false] at hcr ⊢
        by_cases ha : acquireOk
        · simp only [ha, if_true] at hcr ⊢
          simp [profileExists]
        · simp [ha] at hcr
          split at hcr <;> simp_all

/-- Witness for C4 at a concrete state. -/
theorem createProfile_duplicate_rejected_witness :
    onCreate ⟨["My_Profile"], ["My_Profile"], [("My_Profile", "1.20")]⟩
        "My_Profile" "1.21" true =
      (.alreadyExists,
        ⟨["My_Profile"], ["My_Profile"], [("My_Profile", "1.20")]⟩) :=
  (createProfile_duplicate_rejected _ ⟨[], [], []⟩ _ _ _ (by decide)).1

/-- Claim C5 as stated is false: for a name that is not registered (and
whose directory is absent), `delete_profile` is not a no-op — the
unconditional `shutil.rmtree` raises FileNotFoundError. -/
theorem deleteProfile_unregistered_cex :
    formatName "ghost" ∉ PState.profiles ⟨[], [], []⟩ ∧
      deleteProfile ⟨[], [], []⟩ "ghost" = Except.error DelErr.fileNotFound :=
  ⟨by decide, rfl⟩

/-- Claim C5 (amended): `delete_profile` sanitizes the name and
unconditionally removes the profile directory recursively, failing with
FileNotFoundError when that directory does not exist; when the directory
exists it removes it and unregisters the sanitized name if present, and
absence from the registry alone is not an error (the registry removal is
simply skipped). -/
theorem deleteProfile_spec (st1 st2 st3 : PState) (n1 n2 n3 : String)
    (h1 : formatName n1 ∉ st1.dirs)
    (h2a : formatName n2 ∈ st2.dirs) (h2b : formatName n2 ∉ st2.profiles)
    (h3a : formatName n3 ∈ st3.dirs) (h3b : formatName n3 ∈ st3.profiles) :
    deleteProfile st1 n1 = .error .fileNotFound ∧
    deleteProfile st2 n2 =
      .ok ⟨st2.profiles, st2.dirs.erase (formatName n2),
           st2.markers.filter (fun p => p.1 != formatName n2)⟩ ∧
    deleteProfile st3 n3 =
      .ok ⟨st3.profiles.erase (formatName n3), st3.dirs.erase (formatName n3),
           st3.markers.filter (fun p => p.1 != formatName n3)⟩ := by
  refine ⟨?_, ?_, ?_⟩ <;> simp [deleteProfile, *]

/-- Witness for C5's amended theorem at concrete states. -/
theorem deleteProfile_spec_witness :
    deleteProfile ⟨[], [], []⟩ "ghost" = .error .fileNotFound ∧
    deleteProfile ⟨["A"], ["A", "B"], [("A", "1"), ("B", "2")]⟩ "B" =
      .ok ⟨["A"], (["A", "B"] : List String).erase (formatName "B"),
           ([("A", "1"), ("B", "2")] : List (String × String)).filter
             (fun p => p.1 != formatName "B")⟩ ∧
    deleteProfile ⟨["A"], ["A"], [("A", "1")]⟩ "A" =
      .ok ⟨(["A"] : List String).erase (formatName "A"),
           (["A"] : List String).erase (formatName "A"),
           ([("A", "1")] : List (String × String)).filter
             (fun p => p.1 != formatName "A")⟩ :=
  deleteProfile_spec ⟨[], [], []⟩ ⟨["A"], ["A", "B"], [("A", "1"), ("B", "2")]⟩
    ⟨["A"], ["A"], [("A", "1")]⟩ "ghost" "B" "A"
    (by decide) (by decide) (by decide) (by decide) (by decide)

/-! ## Claims about the asset store and the runtime acquirer -/

/-- Claim C7: the asset-object acquisition is idempotent: when the
canonical shard path already exists, it is returned with no network
fetch and no state change; starting from a store without the object, two
sequential calls with the same hash perform exactly one fetch in total
(one on the first call, none on the second) and return the identical
canonical path both times. -/
theorem ensureAsset_idempotent (stored stored2 : List String) (h : String)
    (hmem : shardPath h ∈ stored) (hnot : shardPath h ∉ stored2) :
    ensureAsset stored h = (stored, shardPath h, 0) ∧
    (ensureAsset stored2 h).2.2 = 1 ∧
    (ensureAsset (ensureAsset stored2 h).1 h).2.2 = 0 ∧
    (ensureAsset (ensureAsset stored2 h).1 h).2.1 = (ensureAsset stored2 h).2.1 ∧
    (ensureAsset stored2 h).2.1 = shardPath h := by
  simp [ensureAsset, hmem, hnot]

/-- Witness for C7 at concrete inputs. -/
theorem ensureAsset_idempotent_witness :
    ensureAsset ["assets/objects/ab/ab12"] "ab12" =
      (["assets/objects/ab/ab12"], shardPath "ab12", 0) :=
  (ensureAsset_idempotent ["assets/objects/ab/ab12"] [] "ab12"
    (by decide) (by decide)).1

/-- Claim C8: `download_java` is a no-op when the installation directory
for the requested major version already exists; otherwise, for a version
in the fixed registry {8, 17}, it performs one download of the registry
archive, extracts it (creating the installation directory), and deletes
the downloaded archive from the temp directory; for any other major
version it fails (the registry lookup raises — UnsupportedRuntime). -/
theorem downloadJava_spec (st1 st2 : JavaState) (v w : Nat) (d u : String)
    (hd : jreDirectories v = some d) (hu : jreDownloadUrls v = some u)
    (hmem : d ∈ st1.dirs) (hnot : d ∉ st2.dirs)
    (hw8 : w ≠ 8) (hw17 : w ≠ 17) :
    downloadJava st1 v = .ok st1 ∧
    downloadJava st2 v = .ok
      ⟨d :: st2.dirs,
       (if (lastSegment u ++ ".zip") ∈ st2.temp then st2.temp
        else (lastSegment u ++ ".zip") :: st2.temp).filter
         (fun p => p != (lastSegment u ++ ".zip")),
       st2.fetches + 1⟩ ∧
    (lastSegment u ++ ".zip") ∉
      ((if (lastSegment u ++ ".zip") ∈ st2.temp then st2.temp
        else (lastSegment u ++ ".zip") :: st2.temp).filter
         (fun p => p != (lastSegment u ++ ".zip"))) ∧
    downloadJava st1 w = .error .unsupportedRuntime := by
  refine ⟨?_, ?_, ?_, ?_⟩
  · simp [downloadJava, hd, hmem]
  · simp [downloadJava, hd, hu, hnot]
  · intro hmem2
    simp [List.mem_filter] at hmem2
  · simp [downloadJava, jreDirectories, hw8, hw17]

/-- Witness for C8 at concrete inputs. -/
theorem downloadJava_spec_witness :
    downloadJava ⟨["java/jdk8u392-b08-jre/bin"], [], 0⟩ 8 =
      .ok ⟨["java/jdk8u392-b08-jre/bin"], [], 0⟩ :=
  (downloadJava_spec ⟨["java/jdk8u392-b08-jre/bin"], [], 0⟩ ⟨[], [], 0⟩ 8 11
    "java/jdk8u392-b08-jre/bin"
    "https://github.com/adoptium/temurin8-binaries/releases/download/jdk8u392-b08/OpenJDK8U-jre_x64_windows_hotspot_8u392b08.zip"
    rfl rfl (by decide) (by decide) (by decide) (by decide)).1

/-! ## Claims about name sanitization -/

/-- The chained character replacements of `format_name`, as one function:
`/`, then `\`, then `"`, then `'`, each replaced by `_`. -/
def sanitizeChars (l : List Char) : List Char :=
  pyReplaceChar '\'' '_' (pyReplaceChar '\"' '_'
    (pyReplaceChar '\\' '_' (pyReplaceChar '/' '_' l)))

lemma formatName_def (s : String) :
    formatName s = if sanitizeChars (pyStrip s.data) = ['.', '.'] then "__"
      else String.mk (sanitizeChars (pyStrip s.data)) := rfl

lemma not_mem_pyReplaceChar_self (l : List Char) (a : Char) (ha : a ≠ '_') :
    a ∉ pyReplaceChar a '_' l := by
  intro hmem
  simp only [pyReplaceChar, List.mem_map] at hmem
  obtain ⟨c, _hc, hceq⟩ := hmem
  by_cases h : c = a
  · rw [if_pos h] at hceq
    exact ha hceq.symm
  · rw [if_neg h] at hceq
    exact h hceq

lemma not_mem_pyReplaceChar (l : List Char) (a b : Char) (ha : a ≠ '_')
    (hmem : a ∉ l) : a ∉ pyReplaceChar b '_' l := by
  intro hc
  simp only [pyReplaceChar, List.mem_map] at hc
  obtain ⟨c, hcl, hceq⟩ := hc
  by_cases h : c = b
  · rw [if_pos h] at hceq
    exact ha hceq.symm
  · rw [if_neg h] at hceq
    exact hmem (hceq ▸ hcl)

lemma pyReplaceChar_eq_self (l : List Char) (a b : Char) (h : a ∉ l) :
    pyReplaceChar a b l = l := by
  induction l with
  | nil => rfl
  | cons c tl ih =>
    have h1 : ¬(c = a) := fun he => h (by rw [he]; exact List.mem_cons_self _ _)
    have h2 : a ∉ tl := fun hm => h (List.mem_cons_of_mem _ hm)
    simp only [pyReplaceChar, List.map_cons] at ih ⊢
    rw [if_neg h1, ih h2]

lemma sanitizeChars_no_bad (l : List Char) :
    '/' ∉ sanitizeChars l ∧ '\\' ∉ sanitizeChars l ∧
      '\"' ∉ sanitizeChars l ∧ '\'' ∉ sanitizeChars l := by
  unfold sanitizeChars
  refine ⟨?_, ?_, ?_, ?_⟩
  · exact not_mem_pyReplaceChar _ _ _ (by decide)
      (not_mem_pyReplaceChar _ _ _ (by decide)
        (not_mem_pyReplaceChar _ _ _ (by decide)
          (not_mem_pyReplaceChar_self _ _ (by decide))))
  · exact not_mem_pyReplaceChar _ _ _ (by decide)
      (not_mem_pyReplaceChar _ _ _ (by decide)
        (not_mem_pyReplaceChar_self _ _ (by decide)))
  · exact not_mem_pyReplaceChar _ _ _ (by decide)
      (not_mem_pyReplaceChar_self _ _ (by decide))
  · exact not_mem_pyReplaceChar_self _ _ (by decide)

lemma sanitizeChars_eq_self (l : List Char)
    (h1 : '/' ∉ l) (h2 : '\\' ∉ l) (h3 : '\"' ∉ l) (h4 : '\'' ∉ l) :
    sanitizeChars l = l := by
  unfold sanitizeChars
  rw [pyReplaceChar_eq_self _ _ _ h1, pyReplaceChar_eq_self _ _ _ h2,
    pyReplaceChar_eq_self _ _ _ h3, pyReplaceChar_eq_self _ _ _ h4]

lemma formatName_data_no_bad (s : String) :
    '/' ∉ (formatName s).data ∧ '\\' ∉ (formatName s).data ∧
      '\"' ∉ (formatName s).data ∧ '\'' ∉ (formatName s).data := by
  rw [formatName_def]
  by_cases h : sanitizeChars (pyStrip s.data) = ['.', '.']
  · rw [if_pos h]
    refine ⟨?_, ?_, ?_, ?_⟩ <;> decide
  · rw [if_neg h]
    exact sanitizeChars_no_bad _

lemma pyWhitespace_if_eq (a : Char) (ha : pyWhitespace a = false) (c : Char) :
    pyWhitespace (if c = a then '_' else c) = pyWhitespace c := by
  by_cases h : c = a
  · rw [if_pos h, h, ha]
    decide
  · rw [if_neg h]

lemma dropWhile_pyReplaceChar (a : Char) (ha : pyWhitespace a = false)
    (l : List Char) :
    (pyReplaceChar a '_' l).dropWhile pyWhitespace =
      pyReplaceChar a '_' (l.dropWhile pyWhitespace) := by
  induction l with
  | nil => rfl
  | cons c t ih =>
    cases hb : pyWhitespace c
    · simp [pyReplaceChar, List.dropWhile_cons, pyWhitespace_if_eq a ha, hb]
    · simp only [pyReplaceChar, List.map_cons, List.dropWhile_cons,
        pyWhitespace_if_eq a ha c, hb, if_true]
      simpa [pyReplaceChar] using ih

lemma rdropWhile_pyReplaceChar (a : Char) (ha : pyWhitespace a = false)
    (l : List Char) :
    (pyReplaceChar a '_' l).rdropWhile pyWhitespace =
      pyReplaceChar a '_' (l.rdropWhile pyWhitespace) := by
  simp only [List.rdropWhile]
  rw [show (pyReplaceChar a '_' l).reverse = pyReplaceChar a '_' l.reverse by
      simp [pyReplaceChar, List.map_reverse],
    dropWhile_pyReplaceChar a ha]
  simp [pyReplaceChar, List.map_reverse]

lemma pyStrip_pyReplaceChar (a : Char) (ha : pyWhitespace a = false)
    (l : List Char) :
    pyStrip (pyReplaceChar a '_' l) = pyReplaceChar a '_' (pyStrip l) := by
  simp only [pyStrip]
  rw [dropWhile_pyReplaceChar a ha, rdropWhile_pyReplaceChar a ha]

lemma pyStrip_sanitizeChars (l : List Char) :
    pyStrip (sanitizeChars l) = sanitizeChars (pyStrip l) := by
  simp only [sanitizeChars]
  rw [pyStrip_pyReplaceChar _ (by decide), pyStrip_pyReplaceChar _ (by decide),
    pyStrip_pyReplaceChar _ (by decide), pyStrip_pyReplaceChar _ (by decide)]

lemma rdropWhile_append_exists (p : Char → Bool) (l : List Char) :
    ∃ t, l.rdropWhile p ++ t = l := by
  obtain ⟨t, ht⟩ := List.dropWhile_suffix (l := l.reverse) p
  refine ⟨t.reverse, ?_⟩
  have h2 := congrArg List.reverse ht
  simpa [List.rdropWhile] using h2

lemma dropWhile_rdropWhile (p : Char → Bool) (l : List Char)
    (hl : l.dropWhile p = l) :
    (l.rdropWhile p).dropWhile p = l.rdropWhile p := by
  obtain ⟨t, ht⟩ := rdropWhile_append_exists p l
  cases hm : l.rdropWhile p with
  | nil => rfl
  | cons c m =>
    have hl2 : l = c :: (m ++ t) := by
      rw [← ht, hm]
      rfl
    have hc : p c = false := by
      cases hpc : p c
      · rfl
      · exfalso
        rw [hl2, List.dropWhile_cons, if_pos (by simp [hpc])] at hl
        have hlen := congrArg List.length hl
        have hle := (List.dropWhile_sublist (l := m ++ t) p).length_le
        simp only [List.length_cons] at hlen
        omega
    rw [List.dropWhile_cons, if_neg (by simp [hc])]

lemma pyStrip_idem (l : List Char) : pyStrip (pyStrip l) = pyStrip l := by
  simp only [pyStrip]
  have h1 : (l.dropWhile pyWhitespace).dropWhile pyWhitespace
      = l.dropWhile pyWhitespace := List.dropWhile_idempotent _ _
  rw [dropWhile_rdropWhile pyWhitespace (l.dropWhile pyWhitespace) h1]
  exact List.rdropWhile_idempotent _ _

/-- Claim C6: `format_name` replaces every path separator and quote
character by `_` — its result never contains `/`, `\`, `"`, or `'` — a
trimmed name exactly equal to `".."` maps to `"__"`, and
`format_name("../../x")` is `".._.._x"`, free of separators and quotes. -/
theorem formatName_sanitizes (s t : String) (ht : pyStrip t.data = ['.', '.']) :
    (∀ c ∈ (formatName s).data,
      c ≠ '/' ∧ c ≠ '\\' ∧ c ≠ '\"' ∧ c ≠ '\'') ∧
    formatName t = "__" ∧
    formatName "../../x" = ".._.._x" := by
  refine ⟨?_, ?_, by decide⟩
  · intro c hc
    obtain ⟨h1, h2, h3, h4⟩ := formatName_data_no_bad s
    exact ⟨fun he => h1 (he ▸ hc), fun he => h2 (he ▸ hc),
      fun he => h3 (he ▸ hc), fun he => h4 (he ▸ hc)⟩
  · rw [formatName_def, ht]
    decide

/-- Witness for C6 at concrete inputs. -/
theorem formatName_sanitizes_witness : formatName " .. " = "__" :=
  (formatName_sanitizes "x" " .. " (by decide)).2.1

/-- Claim C10: `format_name` is idempotent, so a name already stored in
the profile registry is unchanged by re-sanitization on later delete,
launch, or existence-check calls. -/
theorem formatName_idempotent (s : String) :
    formatName (formatName s) = formatName s := by
  by_cases h : sanitizeChars (pyStrip s.data) = ['.', '.']
  · rw [formatName_def s, if_pos h]
    decide
  · rw [formatName_def s, if_neg h]
    have hstrip : pyStrip (sanitizeChars (pyStrip s.data))
        = sanitizeChars (pyStrip s.data) := by
      rw [pyStrip_sanitizeChars, pyStrip_idem]
    have hsan : sanitizeChars (sanitizeChars (pyStrip s.data))
        = sanitizeChars (pyStrip s.data) := by
      obtain ⟨b1, b2, b3, b4⟩ := sanitizeChars_no_bad (pyStrip s.data)
      exact sanitizeChars_eq_self _ b1 b2 b3 b4
    show (if sanitizeChars (pyStrip (sanitizeChars (pyStrip s.data)))
          = ['.', '.'] then "__"
        else String.mk (sanitizeChars (pyStrip (sanitizeChars (pyStrip s.data)))))
      = String.mk (sanitizeChars (pyStrip s.data))
    rw [hstrip, hsan, if_neg h]
